import Mathlib

/-!
Verification development for the sauna supervisory controller.

The definitions below are shallow embeddings of the TypeScript source:
pure functions are translated directly; stateful service code is modelled
as explicit state passing, with environment inputs (HTTP results, device
command results, the current wall clock) passed as arguments and the
side effects the code performs recorded as explicit action traces.
Wall-clock instants are `Int` milliseconds; amperages are `ℚ` (the code
manipulates JS numbers only by comparison and field selection here, so
the ordered-field structure is what matters).
-/

namespace Sauna

/-! ## Smart meter: pure threshold evaluator (src/smart-meter/transform.ts) -/

/-- Phase identifier, the `PhaseId` union `"L1" | "L2" | "L3"`. -/
inductive PhaseId
  | L1
  | L2
  | L3
deriving DecidableEq, Repr

/-- Phase amperage data, the `PhaseData` record `{ l1, l2, l3 }`. -/
structure PhaseData where
  l1 : ℚ
  l2 : ℚ
  l3 : ℚ
deriving DecidableEq, Repr

/-- An offending phase paired with its amperage (`ExceededPhase`). -/
structure ExceededPhase where
  phase : PhaseId
  amperage : ℚ
deriving DecidableEq, Repr

/-- Result of the threshold check (`ThresholdResult`):
`{ exceeds: false }` or `{ exceeds: true, phases }`. -/
inductive ThresholdResult
  | noExceed
  | exceeds (phases : List ExceededPhase)
deriving DecidableEq, Repr

/-- Translation of `checkThresholds` (transform.ts lines 32-55): pushes
`L1`, then `L2`, then `L3` onto the offender list when strictly above the
threshold, and returns `noExceed` when the list is empty. -/
def checkThresholds (data : PhaseData) (threshold : ℚ) : ThresholdResult :=
  let exceededPhases : List ExceededPhase :=
    (if data.l1 > threshold then [⟨PhaseId.L1, data.l1⟩] else []) ++
      (if data.l2 > threshold then [⟨PhaseId.L2, data.l2⟩] else []) ++
        (if data.l3 > threshold then [⟨PhaseId.L3, data.l3⟩] else [])
  if exceededPhases.length = 0 then ThresholdResult.noExceed
  else ThresholdResult.exceeds exceededPhases

/-- Specification-side list of offenders: exactly the phases whose value is
strictly greater than the threshold, in the fixed order L1, L2, L3, each
paired with its amperage as received. Used to compare `checkThresholds`
against the words of the spec. -/
def offendersSpec (data : PhaseData) (threshold : ℚ) : List ExceededPhase :=
  ([⟨PhaseId.L1, data.l1⟩, ⟨PhaseId.L2, data.l2⟩,
    ⟨PhaseId.L3, data.l3⟩] : List ExceededPhase).filter
    (fun p => threshold < p.amperage)

/-! ## Monitoring supervisor (src/monitoring/service.ts)

The service mutates a module-level `MonitoringState` and performs external
calls (MCB command, SSE broadcasts, peripheral side effects, notification).
We embed each handler as a pure function from the current state, the
current wall clock and the outcomes of the external calls it issues, to the
new state plus the ordered trace of externally visible actions; the
assignment `state = { ...state, lastSwitchOffTime: now }` at service.ts:118
is recorded in the trace as `setLastSwitchOffTime` so that its ordering
relative to the MCB command can be stated. -/

/-- MCB status union `"ON" | "OFF" | "UNKNOWN"`. -/
inductive McbStatus
  | on
  | off
  | unknown
deriving DecidableEq, Repr

/-- Phase data as delivered by the MQTT adapter (`MqttPhaseData`). -/
structure MqttPhaseData where
  l1 : ℚ
  l2 : ℚ
  l3 : ℚ
  lastUpdate : Option Int
deriving DecidableEq, Repr

/-- The fields of `MonitoringState` that the monitoring service reads and
writes (mcbStatus, phaseData, lastSwitchOffTime, lastPollTime). -/
structure MonitoringState where
  mcbStatus : McbStatus
  phaseData : Option PhaseData
  lastSwitchOffTime : Int
  lastPollTime : Int
deriving DecidableEq, Repr

/-- The configuration values the safety path reads from `config`. -/
structure MonitoringConfig where
  amperageThreshold : ℚ
  switchOffCooldownMs : Int
  enableSafetyShutdown : Bool
deriving Repr

/-- Externally visible actions of the monitoring service, in the order the
source performs them. `sendSafetyShutdown` carries the offender list that
service.ts:310-312 formats into strings before passing it on. -/
inductive MonAction
  | broadcastSensorData (l1 l2 l3 : ℚ)
  | setLastSwitchOffTime (t : Int)
  | turnMcbOffCommand
  | broadcastMcbStatus (status : McbStatus) (source : String)
  | startVentilatorDelayedOff
  | setFloorHeatingOff
  | sendSafetyShutdown (phases : List ExceededPhase)
deriving DecidableEq, Repr

/-- Whether a monitoring action is an SSE broadcast (a snapshot publish). -/
def MonAction.isBroadcast : MonAction → Bool
  | MonAction.broadcastSensorData _ _ _ => true
  | MonAction.broadcastMcbStatus _ _ => true
  | _ => false

/-- Translation of `triggerSafetyShutdown` (service.ts lines 94-147).
`turnOffOk` is the outcome of `turnMcbOffLocal()`, `ventConfigured` whether
`getVentilatorConfig()` returns a config. Inside the cooldown window the
function returns silently; otherwise it commits `lastSwitchOffTime := now`
(service.ts:118) before issuing the MCB off command (service.ts:121). On
command failure it only logs (`logOperationFailed`, service.ts:143): no
broadcast, no state change beyond the committed cooldown, no retry. -/
def triggerSafetyShutdown (cfg : MonitoringConfig) (st : MonitoringState)
    (now : Int) (turnOffOk : Bool) (ventConfigured : Bool)
    (triggerPhases : List ExceededPhase) : MonitoringState × List MonAction :=
  let timeSinceLastOff := now - st.lastSwitchOffTime
  if timeSinceLastOff < cfg.switchOffCooldownMs then
    (st, [])
  else
    let st1 := { st with lastSwitchOffTime := now }
    if turnOffOk then
      ({ st1 with mcbStatus := McbStatus.off },
        [MonAction.setLastSwitchOffTime now, MonAction.turnMcbOffCommand,
          MonAction.broadcastMcbStatus McbStatus.off "auto_safety"] ++
          (if ventConfigured then [MonAction.startVentilatorDelayedOff] else []) ++
          [MonAction.setFloorHeatingOff,
            MonAction.sendSafetyShutdown triggerPhases])
    else
      (st1, [MonAction.setLastSwitchOffTime now, MonAction.turnMcbOffCommand])

/-- Translation of `handlePhaseUpdate` (service.ts lines 297-316): store the
phase data, broadcast it, and when the stored MCB status is ON and safety
shutdown is enabled, evaluate the thresholds and trigger the safety
shutdown on an exceed. -/
def handlePhaseUpdate (cfg : MonitoringConfig) (st : MonitoringState)
    (data : MqttPhaseData) (now : Int) (turnOffOk : Bool)
    (ventConfigured : Bool) : MonitoringState × List MonAction :=
  let phaseData : PhaseData := ⟨data.l1, data.l2, data.l3⟩
  let st1 := { st with phaseData := some phaseData }
  let pre := [MonAction.broadcastSensorData data.l1 data.l2 data.l3]
  if st1.mcbStatus = McbStatus.on ∧ cfg.enableSafetyShutdown then
    match checkThresholds phaseData cfg.amperageThreshold with
    | ThresholdResult.noExceed => (st1, pre)
    | ThresholdResult.exceeds phases =>
        let r := triggerSafetyShutdown cfg st1 now turnOffOk ventConfigured phases
        (r.1, pre ++ r.2)
  else
    (st1, pre)

/-! ## Ventilator controller (src/ventilator/transform.ts and the service
layer appended to src/ventilator/__tests__/transform.test.ts)

The service keeps three module-level variables: `ventilatorState`,
`delayedOffTimer` (a one-shot `setTimeout` handle) and `keepAliveTimer`
(a `setInterval` handle). We model the one-shot handle as `Option Int`
carrying the instant the timer will fire at, and the interval handle as a
`Bool`. HTTP outcomes (`fetch` against the Shelly relay) are inputs:
`Option VentError` for a relay command (`none` = success) and
`Except VentError Bool` for a status query. -/

/-- Ventilator configuration fields the controller reads. -/
structure VentilatorConfig where
  delayOffMinutes : Int
  keepAliveMinutes : Int
deriving DecidableEq, Repr

/-- The `VentilatorState` record of src/ventilator/schema.ts. -/
structure VentilatorState where
  status : Option Bool
  delayedOffEndTime : Option Int
  keepAliveActive : Bool
  lastUpdate : Option Int
deriving DecidableEq, Repr

/-- Ventilator errors (src/ventilator/errors.ts), by tag. -/
inductive VentError
  | disabled
  | controlFailed (turnOn : Bool)
  | statusUnavailable
  | networkError
deriving DecidableEq, Repr

/-- Translation of `calculateDelayEndTime` (transform.ts lines 22-27). -/
def calculateDelayEndTime (config : VentilatorConfig) (now : Int) : Int :=
  now + config.delayOffMinutes * 60 * 1000

/-- Translation of `updateVentilatorStatus` (transform.ts lines 95-105). -/
def updateVentilatorStatus (state : VentilatorState) (status : Option Bool)
    (now : Int) : VentilatorState :=
  { state with status := status, lastUpdate := some now }

/-- Translation of `startDelayedOff` (transform.ts lines 114-122). -/
def startDelayedOff (state : VentilatorState) (endTime : Int) : VentilatorState :=
  { state with delayedOffEndTime := some endTime }

/-- Translation of `clearDelayedOff` (transform.ts lines 130-135). -/
def clearDelayedOff (state : VentilatorState) : VentilatorState :=
  { state with delayedOffEndTime := none }

/-- Translation of `startKeepAlive` (transform.ts lines 143-148). -/
def startKeepAlive (state : VentilatorState) : VentilatorState :=
  { state with keepAliveActive := true }

/-- Translation of `stopKeepAlive` (transform.ts lines 156-161). -/
def stopKeepAlive (state : VentilatorState) : VentilatorState :=
  { state with keepAliveActive := false }

/-- The `INITIAL_VENTILATOR_STATE` value (all fields empty / inactive),
equal to the service `resetState()` result. -/
def INITIAL_VENTILATOR_STATE : VentilatorState :=
  { status := none, delayedOffEndTime := none, keepAliveActive := false,
    lastUpdate := none }

/-- The three module-level variables of the ventilator service layer. -/
structure VentModuleState where
  ventilatorState : VentilatorState
  delayedOffTimer : Option Int
  keepAliveTimer : Bool
deriving DecidableEq, Repr

/-- Module state at load: initial record, no timers. -/
def initialVentModule : VentModuleState :=
  { ventilatorState := INITIAL_VENTILATOR_STATE, delayedOffTimer := none,
    keepAliveTimer := false }

/-- Externally visible ventilator actions: a relay command with its target
level, and a status query. -/
inductive VentAction
  | relayCommand (turnOn : Bool)
  | statusQuery
deriving DecidableEq, Repr

/-- Outcome of a ventilator service call: new module state, emitted
actions in order, and the returned `Result`. -/
structure VentOutcome (α : Type) where
  state : VentModuleState
  actions : List VentAction
  result : Except VentError α
deriving Repr

/-- Translation of `controlShellyRelay` (service lines 331-379): issue the
HTTP relay command; on success update `ventilatorState.status`, on failure
return the error and leave the state untouched. `relayResult` is the HTTP
outcome (`none` = 200 OK). -/
def controlShellyRelay (turnOn : Bool) (relayResult : Option VentError)
    (now : Int) (ms : VentModuleState) : VentOutcome Bool :=
  match relayResult with
  | some e =>
      { state := ms, actions := [VentAction.relayCommand turnOn],
        result := Except.error e }
  | none =>
      let vs := updateVentilatorStatus ms.ventilatorState (some turnOn) now
      { state := { ms with ventilatorState := vs },
        actions := [VentAction.relayCommand turnOn],
        result := Except.ok true }

/-- Translation of `getShellyStatus` (service lines 387-430): query the
relay; on success update `ventilatorState.status` with the observed level. -/
def getShellyStatus (statusResult : Except VentError Bool) (now : Int)
    (ms : VentModuleState) : VentOutcome Bool :=
  match statusResult with
  | Except.ok b =>
      let vs := updateVentilatorStatus ms.ventilatorState (some b) now
      { state := { ms with ventilatorState := vs },
        actions := [VentAction.statusQuery], result := Except.ok b }
  | Except.error e =>
      { state := ms, actions := [VentAction.statusQuery],
        result := Except.error e }

/-- Translation of `stopKeepAliveTimer` (service lines 570-577): clear the
interval and flip `keepAliveActive` only when the interval is live. -/
def stopKeepAliveTimer (ms : VentModuleState) : VentModuleState :=
  if ms.keepAliveTimer then
    { ms with keepAliveTimer := false,
              ventilatorState := stopKeepAlive ms.ventilatorState }
  else ms

/-- Translation of `stopDelayedOffTimer` (service lines 582-589): cancel
the one-shot and clear `delayedOffEndTime` only when the one-shot is live. -/
def stopDelayedOffTimer (ms : VentModuleState) : VentModuleState :=
  if ms.delayedOffTimer.isSome then
    { ms with delayedOffTimer := none,
              ventilatorState := clearDelayedOff ms.ventilatorState }
  else ms

/-- Translation of `clearAllTimers` (service lines 594-608). -/
def clearAllTimers (_ms : VentModuleState) : VentModuleState :=
  { ventilatorState := INITIAL_VENTILATOR_STATE, delayedOffTimer := none,
    keepAliveTimer := false }

/-- Translation of `handleMcbOn` (service lines 445-483), assuming the
ventilator is configured (the unconfigured early return touches nothing).
Cancels a pending delayed OFF (clearing the field with it), turns the
relay ON, and on success starts keep-alive when not already running; on
relay failure returns that error without starting keep-alive. -/
def handleMcbOn (relayResult : Option VentError) (now : Int)
    (ms : VentModuleState) : VentOutcome Bool :=
  let ms1 :=
    if ms.delayedOffTimer.isSome then
      { ms with delayedOffTimer := none,
                ventilatorState := clearDelayedOff ms.ventilatorState }
    else ms
  let relay := controlShellyRelay true relayResult now ms1
  match relay.result with
  | Except.error e =>
      { state := relay.state, actions := relay.actions,
        result := Except.error e }
  | Except.ok _ =>
      if relay.state.keepAliveTimer then
        { state := relay.state, actions := relay.actions,
          result := Except.ok true }
      else
        let vs := startKeepAlive relay.state.ventilatorState
        { state := { relay.state with keepAliveTimer := true,
                                      ventilatorState := vs },
          actions := relay.actions, result := Except.ok true }

/-- Translation of `handleMcbOff` (service lines 494-545), assuming the
ventilator is configured. Cancels any existing delayed OFF timer handle
(service lines 505-508 — note the state field is NOT cleared there), then
queries the relay: observed OFF stops keep-alive immediately; observed ON
or a failed query arms a fresh one-shot at `calculateDelayEndTime`. -/
def handleMcbOff (cfg : VentilatorConfig) (statusResult : Except VentError Bool)
    (now : Int) (ms : VentModuleState) : VentOutcome Bool :=
  let ms1 :=
    if ms.delayedOffTimer.isSome then { ms with delayedOffTimer := none }
    else ms
  let st := getShellyStatus statusResult now ms1
  match st.result with
  | Except.ok false =>
      { state := stopKeepAliveTimer st.state, actions := st.actions,
        result := Except.ok true }
  | _ =>
      let endTime := calculateDelayEndTime cfg now
      let vs := startDelayedOff st.state.ventilatorState endTime
      { state := { st.state with delayedOffTimer := some endTime,
                                 ventilatorState := vs },
        actions := st.actions, result := Except.ok true }

/-- The callback armed by `handleMcbOff` (service lines 530-542): when the
one-shot fires it commands the relay OFF, clears the handle and the field,
then stops keep-alive. A cancelled timer never fires, so with no live
handle this is a no-op. The relay outcome does not alter the flow. -/
def delayedOffTimerFire (relayResult : Option VentError) (now : Int)
    (ms : VentModuleState) : VentModuleState × List VentAction :=
  if ms.delayedOffTimer.isSome then
    let relay := controlShellyRelay false relayResult now ms
    let vs := clearDelayedOff relay.state.ventilatorState
    let ms2 := { relay.state with delayedOffTimer := none,
                                  ventilatorState := vs }
    (stopKeepAliveTimer ms2, relay.actions)
  else (ms, [])

/-- Translation of `resetKeepAlive` (service lines 554-565): cycle the
relay OFF then ON. Fires only while the interval handle is live. -/
def resetKeepAlive (r1 r2 : Option VentError) (now1 now2 : Int)
    (ms : VentModuleState) : VentModuleState × List VentAction :=
  let a := controlShellyRelay false r1 now1 ms
  let b := controlShellyRelay true r2 now2 a.state
  (b.state, a.actions ++ b.actions)

deriving instance DecidableEq for Except

/-- An externally triggerable ventilator operation together with the
environment inputs it consumes; used to quantify over reachable module
states. -/
inductive VentOp
  | mcbOn (relayResult : Option VentError) (now : Int)
  | mcbOff (statusResult : Except VentError Bool) (now : Int)
  | timerFire (relayResult : Option VentError) (now : Int)
  | keepAliveTick (r1 r2 : Option VentError) (now1 now2 : Int)
  | stopDelayedOff
  | clearTimers
deriving DecidableEq, Repr

/-- One step of the ventilator module: dispatch an operation. The interval
callback runs only while the interval handle is live. -/
def ventStep (cfg : VentilatorConfig) (ms : VentModuleState) :
    VentOp → VentModuleState
  | VentOp.mcbOn relayResult now => (handleMcbOn relayResult now ms).state
  | VentOp.mcbOff statusResult now => (handleMcbOff cfg statusResult now ms).state
  | VentOp.timerFire relayResult now => (delayedOffTimerFire relayResult now ms).1
  | VentOp.keepAliveTick r1 r2 now1 now2 =>
      if ms.keepAliveTimer then (resetKeepAlive r1 r2 now1 now2 ms).1 else ms
  | VentOp.stopDelayedOff => stopDelayedOffTimer ms
  | VentOp.clearTimers => clearAllTimers ms

/-- Run a sequence of ventilator operations from a module state. -/
def ventRun (cfg : VentilatorConfig) (ms : VentModuleState)
    (ops : List VentOp) : VentModuleState :=
  ops.foldl (ventStep cfg) ms

/-- The one-directional timer/field invariant that does hold: a live
one-shot handle implies the deadline field holds exactly its fire time. -/
def timerFieldOk (ms : VentModuleState) : Bool :=
  match ms.delayedOffTimer with
  | none => true
  | some d => ms.ventilatorState.delayedOffEndTime == some d

/-! ## MQTT phase accumulator (src/mqtt/transform.ts and the `phase` case
of `handleMessage` in the MQTT service layer)

P1 Monitor publishes each phase amperage to its own topic. The adapter
accumulates the per-field values and hands a complete reading to the
supervisor only when all three are present. We model the successfully
parsed per-field updates (topic recognised by `extractPhaseField`, payload
parsed by `parsePhaseValue`) as a list of `PhaseUpd` values. -/

/-- A per-field phase topic, the `PhaseField` union. -/
inductive PhaseField
  | l1_a
  | l2_a
  | l3_a
deriving DecidableEq, Repr

/-- The `PhaseAccumulator` record: three nullable fields plus the
last-update instant. -/
structure PhaseAccumulator where
  l1_a : Option ℚ
  l2_a : Option ℚ
  l3_a : Option ℚ
  lastUpdate : Option Int
deriving DecidableEq, Repr

/-- The `INITIAL_PHASE_ACCUMULATOR`: all fields null. -/
def INITIAL_PHASE_ACCUMULATOR : PhaseAccumulator :=
  { l1_a := none, l2_a := none, l3_a := none, lastUpdate := none }

/-- Translation of `updatePhaseAccumulator` (transform.ts lines 450-461):
set the addressed field and the last-update instant. -/
def updatePhaseAccumulator (accumulator : PhaseAccumulator)
    (field : PhaseField) (value : ℚ) (now : Int) : PhaseAccumulator :=
  match field with
  | PhaseField.l1_a => { accumulator with l1_a := some value, lastUpdate := some now }
  | PhaseField.l2_a => { accumulator with l2_a := some value, lastUpdate := some now }
  | PhaseField.l3_a => { accumulator with l3_a := some value, lastUpdate := some now }

/-- Translation of `accumulatorToPhaseData` (transform.ts lines 469-487):
a complete reading exactly when no field is null. -/
def accumulatorToPhaseData (accumulator : PhaseAccumulator) :
    Option MqttPhaseData :=
  match accumulator.l1_a, accumulator.l2_a, accumulator.l3_a with
  | some l1, some l2, some l3 =>
      some { l1 := l1, l2 := l2, l3 := l3, lastUpdate := accumulator.lastUpdate }
  | _, _, _ => none

/-- One successfully parsed per-field phase update. -/
structure PhaseUpd where
  field : PhaseField
  value : ℚ
  now : Int
deriving DecidableEq, Repr

/-- The `phase` case of the MQTT `handleMessage` callback: update the
accumulator, then emit a complete reading when `accumulatorToPhaseData`
produces one. -/
def handlePhaseMessage (accumulator : PhaseAccumulator) (u : PhaseUpd) :
    PhaseAccumulator × Option MqttPhaseData :=
  let updatedAccumulator := updatePhaseAccumulator accumulator u.field u.value u.now
  (updatedAccumulator, accumulatorToPhaseData updatedAccumulator)

/-- Accumulator after a sequence of per-field updates. -/
def phaseRunAcc (accumulator : PhaseAccumulator) (us : List PhaseUpd) :
    PhaseAccumulator :=
  us.foldl (fun a u => (handlePhaseMessage a u).1) accumulator

/-- The per-step emissions of a sequence of per-field updates: the i-th
entry is what `handleMessage` hands to `onPhase` after the i-th update
(`none` when nothing is emitted). -/
def phaseEmits : PhaseAccumulator → List PhaseUpd → List (Option MqttPhaseData)
  | _, [] => []
  | accumulator, u :: us =>
      let r := handlePhaseMessage accumulator u
      r.2 :: phaseEmits r.1 us

/-- Whether some update in the list addresses the given field. -/
def observedField (us : List PhaseUpd) (f : PhaseField) : Bool :=
  us.any (fun u => u.field == f)

/-! ## Notifications (src/notifications/transform.ts, schema.ts, and the
service layer in the notifications module)

The cooldown ledger is a record of last-send instants. The service
functions check the ledger, attempt the send (outcome passed in as
`sendResult`, `none` = delivered) and update the ledger only on success. -/

/-- The `CooldownState` ledger: last-send instant per notification kind. -/
structure CooldownState where
  safetyShutdown : Int
  temperature : Int
deriving DecidableEq, Repr

/-- The `COOLDOWN_DURATIONS.safetyShutdown` constant (schema.ts:132). -/
def COOLDOWN_SAFETY_SHUTDOWN_MS : Int := 60000

/-- The `COOLDOWN_DURATIONS.temperature` constant (schema.ts:134). -/
def COOLDOWN_TEMPERATURE_MS : Int := 300000

/-- Translation of `isSafetyShutdownAllowed` (transform.ts lines 180-185). -/
def isSafetyShutdownAllowed (state : CooldownState) (now : Int) : Bool :=
  decide (now - state.safetyShutdown ≥ COOLDOWN_SAFETY_SHUTDOWN_MS)

/-- Translation of `isTemperatureNotificationAllowed` (transform.ts
lines 194-199). -/
def isTemperatureNotificationAllowed (state : CooldownState) (now : Int) : Bool :=
  decide (now - state.temperature ≥ COOLDOWN_TEMPERATURE_MS)

/-- Translation of `getSafetyShutdownCooldownRemaining` (transform.ts
lines 208-215). -/
def getSafetyShutdownCooldownRemaining (state : CooldownState) (now : Int) : Int :=
  max 0 (COOLDOWN_SAFETY_SHUTDOWN_MS - (now - state.safetyShutdown))

/-- Translation of `getTemperatureCooldownRemaining` (transform.ts
lines 224-230). -/
def getTemperatureCooldownRemaining (state : CooldownState) (now : Int) : Int :=
  max 0 (COOLDOWN_TEMPERATURE_MS - (now - state.temperature))

/-- Translation of `updateSafetyShutdownCooldown` (transform.ts
lines 235-240). -/
def updateSafetyShutdownCooldown (state : CooldownState) (now : Int) :
    CooldownState :=
  { state with safetyShutdown := now }

/-- Translation of `updateTemperatureCooldown` (transform.ts lines 245-250). -/
def updateTemperatureCooldown (state : CooldownState) (now : Int) :
    CooldownState :=
  { state with temperature := now }

/-- Notification errors, by tag (`rateLimited` carries the remaining
cooldown milliseconds). -/
inductive NotificationError
  | rateLimited (remainingMs : Int)
  | sendFailed
  | networkFailure
deriving DecidableEq, Repr

/-- Translation of `sendSafetyShutdownNotification` (notifications service):
inside the cooldown return `rateLimited(remaining)` without touching the
ledger; otherwise attempt the send (`sendResult`, `none` = delivered) and
update the ledger only when the send succeeded. -/
def sendSafetyShutdownNotification (cooldownState : CooldownState) (now : Int)
    (sendResult : Option NotificationError) :
    CooldownState × Except NotificationError Unit :=
  if !isSafetyShutdownAllowed cooldownState now then
    let remaining := getSafetyShutdownCooldownRemaining cooldownState now
    (cooldownState, Except.error (NotificationError.rateLimited remaining))
  else
    match sendResult with
    | none => (updateSafetyShutdownCooldown cooldownState now, Except.ok ())
    | some e => (cooldownState, Except.error e)

/-- Translation of `sendTemperatureNotification` (notifications service):
same shape as the safety-shutdown sender, against the temperature entry. -/
def sendTemperatureNotification (cooldownState : CooldownState) (now : Int)
    (sendResult : Option NotificationError) :
    CooldownState × Except NotificationError Unit :=
  if !isTemperatureNotificationAllowed cooldownState now then
    let remaining := getTemperatureCooldownRemaining cooldownState now
    (cooldownState, Except.error (NotificationError.rateLimited remaining))
  else
    match sendResult with
    | none => (updateTemperatureCooldown cooldownState now, Except.ok ())
    | some e => (cooldownState, Except.error e)

/-! ## SSE broadcaster (the SSE service layer appended to
src/floor-heating/index.ts, and the `/api/events` route in
src/api/routes.tsx)

Each client holds a queue of wire events it has been sent. `createSseStream`
registers a client and enqueues a synthetic `connected` event as the first
item on the new stream; the `/api/events` handler then computes
`getSystemState()` inside a `setTimeout` but sends nothing with it
(routes.tsx lines 345-349), so no further initial event exists. -/

/-- A wire event on an SSE client stream. -/
inductive SseWire
  | connected (clientId : Nat)
  | mcbStatusWire (status : McbStatus) (source : String)
  | sensorDataWire (l1 l2 l3 : ℚ)
  | temperatureWire (temperature : ℚ)
  | doorWire (isOpen : Bool)
deriving DecidableEq, Repr

/-- Whether a wire event carries system-state data (anything except the
synthetic connection confirmation). -/
def SseWire.carriesState : SseWire → Bool
  | SseWire.connected _ => false
  | _ => true

/-- An SSE client as kept in the module-level `clients` list. -/
structure SseClient where
  id : Nat
  connected : Bool
  queue : List SseWire
deriving DecidableEq, Repr

/-- The SSE module state: client list plus the id counter. -/
structure SseState where
  clients : List SseClient
  nextClientId : Nat
deriving DecidableEq, Repr

/-- SSE module state at load: no clients, counter at 1. -/
def initialSseState : SseState :=
  { clients := [], nextClientId := 1 }

/-- Translation of `createSseStream` (SSE service lines 88-129): allocate
an id, register the client, and enqueue the synthetic `connected` event as
the first item of its stream. -/
def createSseStream (s : SseState) : SseState × Nat :=
  let clientId := s.nextClientId
  let client : SseClient :=
    { id := clientId, connected := true, queue := [SseWire.connected clientId] }
  ({ clients := s.clients ++ [client], nextClientId := clientId + 1 }, clientId)

/-! ## Helper lemmas -/

/-- Characterisation of the empty-offender case of `checkThresholds`. -/
lemma checkThresholds_eq_noExceed_iff (data : PhaseData) (threshold : ℚ) :
    checkThresholds data threshold = ThresholdResult.noExceed ↔
      data.l1 ≤ threshold ∧ data.l2 ≤ threshold ∧ data.l3 ≤ threshold := by
  by_cases h1 : threshold < data.l1 <;> by_cases h2 : threshold < data.l2 <;>
    by_cases h3 : threshold < data.l3 <;>
      simp [checkThresholds, h1, h2, h3, not_lt, le_of_not_lt] at *

/-- On every input `checkThresholds` produces the offender list described
by the spec, wrapped according to emptiness. -/
lemma checkThresholds_eq_offendersSpec (data : PhaseData) (threshold : ℚ) :
    checkThresholds data threshold =
      (if offendersSpec data threshold = [] then ThresholdResult.noExceed
        else ThresholdResult.exceeds (offendersSpec data threshold)) := by
  by_cases h1 : threshold < data.l1 <;> by_cases h2 : threshold < data.l2 <;>
    by_cases h3 : threshold < data.l3 <;>
      simp [checkThresholds, offendersSpec, h1, h2, h3]

/-! ## Claim theorems -/

/-- C2: `checkThresholds(data, threshold)` returns `{ exceeds: false }`
exactly when none of l1, l2, l3 is strictly greater than the threshold
(equality does not trigger); otherwise it returns `{ exceeds: true }` with
the offenders being exactly the phases strictly above the threshold, each
paired with its amperage as received, in the fixed order L1, L2, L3. The
function is embedded as a pure Lean function, so purity and determinism
hold by construction. -/
theorem checkThresholds_strict_order_spec (data : PhaseData) (threshold : ℚ) :
    (checkThresholds data threshold = ThresholdResult.noExceed ↔
      data.l1 ≤ threshold ∧ data.l2 ≤ threshold ∧ data.l3 ≤ threshold) ∧
    checkThresholds data threshold =
      (if offendersSpec data threshold = [] then ThresholdResult.noExceed
        else ThresholdResult.exceeds (offendersSpec data threshold)) :=
  ⟨checkThresholds_eq_noExceed_iff data threshold,
    checkThresholds_eq_offendersSpec data threshold⟩

/-- C7: after the ledger records instant `t` for a kind, the allow check at
`t'` with `t' - t` below the kind's cooldown is denied with remaining time
exactly `cooldown - (t' - t)`, and at `t' - t ≥ cooldown` it is allowed;
the cooldowns are 60 000 ms for safety shutdown and 300 000 ms for
temperature alerts. The allow check is embedded as a pure function of the
ledger and the clock, so it modifies no state by construction. -/
theorem cooldown_window_arithmetic (s : CooldownState) (t tp : Int) :
    (tp - t < COOLDOWN_SAFETY_SHUTDOWN_MS →
      isSafetyShutdownAllowed (updateSafetyShutdownCooldown s t) tp = false ∧
      getSafetyShutdownCooldownRemaining (updateSafetyShutdownCooldown s t) tp =
        COOLDOWN_SAFETY_SHUTDOWN_MS - (tp - t)) ∧
    (COOLDOWN_SAFETY_SHUTDOWN_MS ≤ tp - t →
      isSafetyShutdownAllowed (updateSafetyShutdownCooldown s t) tp = true) ∧
    (tp - t < COOLDOWN_TEMPERATURE_MS →
      isTemperatureNotificationAllowed (updateTemperatureCooldown s t) tp = false ∧
      getTemperatureCooldownRemaining (updateTemperatureCooldown s t) tp =
        COOLDOWN_TEMPERATURE_MS - (tp - t)) ∧
    (COOLDOWN_TEMPERATURE_MS ≤ tp - t →
      isTemperatureNotificationAllowed (updateTemperatureCooldown s t) tp = true) := by
  simp only [isSafetyShutdownAllowed, getSafetyShutdownCooldownRemaining,
    updateSafetyShutdownCooldown, isTemperatureNotificationAllowed,
    getTemperatureCooldownRemaining, updateTemperatureCooldown,
    COOLDOWN_SAFETY_SHUTDOWN_MS, COOLDOWN_TEMPERATURE_MS,
    decide_eq_false_iff_not, decide_eq_true_eq, not_le]
  refine ⟨fun h => ⟨h, ?_⟩, fun h => h, fun h => ⟨h, ?_⟩, fun h => h⟩ <;> omega

/-- Witness for C7 at `t = 100000`, `t' = 130000` (denied, 30 000 ms left)
and `t' = 160000` (allowed) for the safety-shutdown kind, and at
`t' = 130000` (denied) and `t' = 400000` (allowed) for the temperature
kind. -/
theorem cooldown_window_arithmetic_witness :
    (isSafetyShutdownAllowed (updateSafetyShutdownCooldown ⟨0, 0⟩ 100000) 130000 = false ∧
      getSafetyShutdownCooldownRemaining (updateSafetyShutdownCooldown ⟨0, 0⟩ 100000) 130000 = 30000) ∧
    isSafetyShutdownAllowed (updateSafetyShutdownCooldown ⟨0, 0⟩ 100000) 160000 = true ∧
    (isTemperatureNotificationAllowed (updateTemperatureCooldown ⟨0, 0⟩ 100000) 130000 = false ∧
      getTemperatureCooldownRemaining (updateTemperatureCooldown ⟨0, 0⟩ 100000) 130000 = 270000) ∧
    isTemperatureNotificationAllowed (updateTemperatureCooldown ⟨0, 0⟩ 100000) 400000 = true := by
  refine ⟨?_, ?_, ?_, ?_⟩
  · simpa using (cooldown_window_arithmetic ⟨0, 0⟩ 100000 130000).1 (by decide)
  · simpa using (cooldown_window_arithmetic ⟨0, 0⟩ 100000 160000).2.1 (by decide)
  · simpa using (cooldown_window_arithmetic ⟨0, 0⟩ 100000 130000).2.2.1 (by decide)
  · simpa using (cooldown_window_arithmetic ⟨0, 0⟩ 100000 400000).2.2.2 (by decide)

/-- C8: the notification senders update the cooldown ledger entry for their
kind only when the underlying send succeeded; a cooldown-denied attempt
leaves the ledger unchanged and returns a rate-limited error carrying the
remaining milliseconds, and a failed send leaves the ledger unchanged and
returns the send error. -/
theorem notification_ledger_update_on_success (cs : CooldownState) (now : Int) :
    (isSafetyShutdownAllowed cs now = false →
      ∀ sendResult, sendSafetyShutdownNotification cs now sendResult =
        (cs, Except.error (NotificationError.rateLimited
          (getSafetyShutdownCooldownRemaining cs now)))) ∧
    (isSafetyShutdownAllowed cs now = true →
      sendSafetyShutdownNotification cs now none =
        (updateSafetyShutdownCooldown cs now, Except.ok ()) ∧
      ∀ e, sendSafetyShutdownNotification cs now (some e) = (cs, Except.error e)) ∧
    (isTemperatureNotificationAllowed cs now = false →
      ∀ sendResult, sendTemperatureNotification cs now sendResult =
        (cs, Except.error (NotificationError.rateLimited
          (getTemperatureCooldownRemaining cs now)))) ∧
    (isTemperatureNotificationAllowed cs now = true →
      sendTemperatureNotification cs now none =
        (updateTemperatureCooldown cs now, Except.ok ()) ∧
      ∀ e, sendTemperatureNotification cs now (some e) = (cs, Except.error e)) := by
  refine ⟨fun h sendResult => ?_, fun h => ⟨?_, fun e => ?_⟩,
    fun h sendResult => ?_, fun h => ⟨?_, fun e => ?_⟩⟩ <;>
      simp [sendSafetyShutdownNotification, sendTemperatureNotification, h]

/-- Witness for C8: denied at `now = 0` from a fresh ledger recorded at 0;
allowed at `now = 60000` (safety) and `now = 300000` (temperature), with
the ledger updated on a successful send and untouched on a failed one. -/
theorem notification_ledger_update_on_success_witness :
    sendSafetyShutdownNotification ⟨0, 0⟩ 30000 none =
      (⟨0, 0⟩, Except.error (NotificationError.rateLimited 30000)) ∧
    sendSafetyShutdownNotification ⟨0, 0⟩ 60000 none =
      (⟨60000, 0⟩, Except.ok ()) ∧
    sendSafetyShutdownNotification ⟨0, 0⟩ 60000 (some NotificationError.sendFailed) =
      (⟨0, 0⟩, Except.error NotificationError.sendFailed) ∧
    sendTemperatureNotification ⟨0, 0⟩ 30000 none =
      (⟨0, 0⟩, Except.error (NotificationError.rateLimited 270000)) ∧
    sendTemperatureNotification ⟨0, 0⟩ 300000 none =
      (⟨0, 300000⟩, Except.ok ()) := by
  refine ⟨?_, ?_, ?_, ?_, ?_⟩
  · simpa using (notification_ledger_update_on_success ⟨0, 0⟩ 30000).1 (by decide) none
  · simpa using ((notification_ledger_update_on_success ⟨0, 0⟩ 60000).2.1 (by decide)).1
  · simpa using ((notification_ledger_update_on_success ⟨0, 0⟩ 60000).2.1 (by decide)).2
      NotificationError.sendFailed
  · simpa using (notification_ledger_update_on_success ⟨0, 0⟩ 30000).2.2.1 (by decide) none
  · simpa using ((notification_ledger_update_on_success ⟨0, 0⟩ 300000).2.2.2 (by decide)).1

/-- C9: evaluation of the subscribe path. A subscriber attaching to a fresh
broadcaster receives the synthetic `connected` event as the only initial
item on its stream; that event carries no system-state data, so the current
snapshot is not delivered on subscribe (the `/api/events` handler computes
`getSystemState()` inside a `setTimeout` but never sends it,
routes.tsx lines 345-349). -/
theorem createSseStream_initial_event_is_connected :
    ((createSseStream initialSseState).1.clients.map (fun c => c.queue)) =
      [[SseWire.connected 1]] ∧
    List.filter SseWire.carriesState [SseWire.connected 1] = [] := by
  constructor <;> rfl

/-- C10: when the relay ON command of `handleMcbOn` fails, the function
returns that error, the keep-alive interval is not started and
`keepAliveActive` is unchanged, while a pending delayed-off timer has
nevertheless been cancelled (and its deadline field cleared) before the
relay call; the relay command was the only action issued. -/
theorem handleMcbOn_error_keeps_keepAlive (e : VentError) (now : Int)
    (ms : VentModuleState) :
    (handleMcbOn (some e) now ms).result = Except.error e ∧
    (handleMcbOn (some e) now ms).state.keepAliveTimer = ms.keepAliveTimer ∧
    (handleMcbOn (some e) now ms).state.ventilatorState.keepAliveActive =
      ms.ventilatorState.keepAliveActive ∧
    (handleMcbOn (some e) now ms).state.delayedOffTimer = none ∧
    (handleMcbOn (some e) now ms).state.ventilatorState.delayedOffEndTime =
      (if ms.delayedOffTimer.isSome then none
        else ms.ventilatorState.delayedOffEndTime) ∧
    (handleMcbOn (some e) now ms).actions = [VentAction.relayCommand true] := by
  cases hd : ms.delayedOffTimer <;>
    simp [handleMcbOn, controlShellyRelay, clearDelayedOff, hd]

/-- C1: when a phase reading is handled with the stored MCB status ON and
safety shutdown enabled, and some component strictly exceeds the threshold,
then in that one handling step either the handler is still inside the
cooldown window (`now - lastSwitchOffTime < SWITCH_OFF_COOLDOWN_MS`) and
issues no MCB turn-off, or the cooldown has elapsed and it issues the MCB
turn-off exactly once, committing `lastSwitchOffTime := now` (trace index 1)
strictly before the turn-off command (trace index 2). -/
theorem handlePhaseUpdate_safety_step (cfg : MonitoringConfig)
    (st : MonitoringState) (data : MqttPhaseData) (now : Int)
    (turnOffOk ventConfigured : Bool)
    (hOn : st.mcbStatus = McbStatus.on)
    (hEn : cfg.enableSafetyShutdown = true)
    (hEx : cfg.amperageThreshold < data.l1 ∨ cfg.amperageThreshold < data.l2 ∨
      cfg.amperageThreshold < data.l3) :
    (now - st.lastSwitchOffTime < cfg.switchOffCooldownMs ∧
      MonAction.turnMcbOffCommand ∉
        (handlePhaseUpdate cfg st data now turnOffOk ventConfigured).2) ∨
    (cfg.switchOffCooldownMs ≤ now - st.lastSwitchOffTime ∧
      (handlePhaseUpdate cfg st data now turnOffOk ventConfigured).1.lastSwitchOffTime = now ∧
      (handlePhaseUpdate cfg st data now turnOffOk ventConfigured).2[1]? =
        some (MonAction.setLastSwitchOffTime now) ∧
      (handlePhaseUpdate cfg st data now turnOffOk ventConfigured).2[2]? =
        some MonAction.turnMcbOffCommand) := by
  have hne : checkThresholds ⟨data.l1, data.l2, data.l3⟩ cfg.amperageThreshold ≠
      ThresholdResult.noExceed := by
    rw [Ne, checkThresholds_eq_noExceed_iff]
    push_neg
    intro a b
    rcases hEx with h | h | h
    · exact absurd a (not_le.mpr h)
    · exact absurd b (not_le.mpr h)
    · exact h
  by_cases hcool : now - st.lastSwitchOffTime < cfg.switchOffCooldownMs
  · left
    refine ⟨hcool, ?_⟩
    cases hres : checkThresholds ⟨data.l1, data.l2, data.l3⟩ cfg.amperageThreshold with
    | noExceed => simp [handlePhaseUpdate, hOn, hEn, hres]
    | exceeds phases =>
        simp [handlePhaseUpdate, hOn, hEn, hres, triggerSafetyShutdown, hcool]
  · right
    refine ⟨le_of_not_lt hcool, ?_⟩
    cases hres : checkThresholds ⟨data.l1, data.l2, data.l3⟩ cfg.amperageThreshold with
    | noExceed => exact absurd hres hne
    | exceeds phases =>
        cases turnOffOk <;>
          simp [handlePhaseUpdate, hOn, hEn, hres, triggerSafetyShutdown, hcool]

/-- Witness for C1: threshold 25, cooldown 10 000 ms, last switch-off at 0,
reading (28, 7, 3) handled at 20 000 ms — the cooldown has elapsed, so the
trace commits the cooldown instant at index 1 and issues the turn-off at
index 2. -/
theorem handlePhaseUpdate_safety_step_witness :
    (20000 - (0 : Int) <
        (10000 : Int) ∧
      MonAction.turnMcbOffCommand ∉
        (handlePhaseUpdate ⟨25, 10000, true⟩ ⟨McbStatus.on, none, 0, 0⟩
          ⟨28, 7, 3, some 2000⟩ 20000 true true).2) ∨
    ((10000 : Int) ≤ 20000 - (0 : Int) ∧
      (handlePhaseUpdate ⟨25, 10000, true⟩ ⟨McbStatus.on, none, 0, 0⟩
        ⟨28, 7, 3, some 2000⟩ 20000 true true).1.lastSwitchOffTime = 20000 ∧
      (handlePhaseUpdate ⟨25, 10000, true⟩ ⟨McbStatus.on, none, 0, 0⟩
        ⟨28, 7, 3, some 2000⟩ 20000 true true).2[1]? =
          some (MonAction.setLastSwitchOffTime 20000) ∧
      (handlePhaseUpdate ⟨25, 10000, true⟩ ⟨McbStatus.on, none, 0, 0⟩
        ⟨28, 7, 3, some 2000⟩ 20000 true true).2[2]? =
          some MonAction.turnMcbOffCommand) :=
  handlePhaseUpdate_safety_step ⟨25, 10000, true⟩ ⟨McbStatus.on, none, 0, 0⟩
    ⟨28, 7, 3, some 2000⟩ 20000 true true rfl rfl (Or.inl (by norm_num))

/-- C3 counterexample: with threshold 25, cooldown 10 000 ms, last
switch-off at 0 and a failing MCB turn-off at `now = 20000`, the failure
branch of `triggerSafetyShutdown` publishes no snapshot at all — the action
trace contains no broadcast — so no snapshot carrying an error annotation
(`lastSafetyError`, a field that exists nowhere in the code) is published,
contrary to the claim. -/
theorem triggerSafetyShutdown_failure_no_snapshot :
    (triggerSafetyShutdown ⟨25, 10000, true⟩ ⟨McbStatus.on, none, 0, 0⟩ 20000
      false true [⟨PhaseId.L1, 28⟩]).2.filter MonAction.isBroadcast = [] ∧
    (triggerSafetyShutdown ⟨25, 10000, true⟩ ⟨McbStatus.on, none, 0, 0⟩ 20000
      false true [⟨PhaseId.L1, 28⟩]).2 ≠ [] := by
  constructor <;> decide

/-- C3 amended: when the MCB turn-off issued by the safety shutdown fails
(outside the cooldown window), the supervisor keeps the stored MCB status
unchanged, leaves the committed `lastSwitchOffTime = now` in place, issues
the turn-off exactly once (no retry), and publishes nothing: no broadcast
and no notification appear in the trace, and the state has no error
annotation field (`MonitoringState` carries none). -/
theorem triggerSafetyShutdown_failure_behavior (cfg : MonitoringConfig)
    (st : MonitoringState) (now : Int) (ventConfigured : Bool)
    (phases : List ExceededPhase)
    (h : cfg.switchOffCooldownMs ≤ now - st.lastSwitchOffTime) :
    (triggerSafetyShutdown cfg st now false ventConfigured phases).1.mcbStatus =
      st.mcbStatus ∧
    (triggerSafetyShutdown cfg st now false ventConfigured phases).1.phaseData =
      st.phaseData ∧
    (triggerSafetyShutdown cfg st now false ventConfigured phases).1.lastSwitchOffTime =
      now ∧
    (triggerSafetyShutdown cfg st now false ventConfigured phases).2.count
      MonAction.turnMcbOffCommand = 1 ∧
    (triggerSafetyShutdown cfg st now false ventConfigured phases).2.filter
      MonAction.isBroadcast = [] ∧
    ∀ p, MonAction.sendSafetyShutdown p ∉
      (triggerSafetyShutdown cfg st now false ventConfigured phases).2 := by
  have hcool : ¬(now - st.lastSwitchOffTime < cfg.switchOffCooldownMs) :=
    not_lt.mpr h
  simp [triggerSafetyShutdown, hcool, List.count_cons, MonAction.isBroadcast]

/-- Witness for C3 (amended) at the counterexample input: failing turn-off
at 20 000 ms, cooldown elapsed. -/
theorem triggerSafetyShutdown_failure_behavior_witness :
    (triggerSafetyShutdown ⟨25, 10000, true⟩ ⟨McbStatus.on, none, 0, 0⟩ 20000
      false true []).1.mcbStatus = McbStatus.on ∧
    (triggerSafetyShutdown ⟨25, 10000, true⟩ ⟨McbStatus.on, none, 0, 0⟩ 20000
      false true []).1.lastSwitchOffTime = 20000 ∧
    (triggerSafetyShutdown ⟨25, 10000, true⟩ ⟨McbStatus.on, none, 0, 0⟩ 20000
      false true []).2.count MonAction.turnMcbOffCommand = 1 := by
  have h := triggerSafetyShutdown_failure_behavior ⟨25, 10000, true⟩
    ⟨McbStatus.on, none, 0, 0⟩ 20000 true [] (by norm_num)
  exact ⟨h.1, h.2.2.1, h.2.2.2.1⟩

/-- C5: `handleMcbOff` with the relay observed ON, or with its status
unobtainable, arms a one-shot at `now + delayOffMinutes` (minutes in ms)
without stopping the keep-alive cycler (interval handle and
`keepAliveActive` unchanged), cancelling and re-arming any pre-existing
one-shot; with the relay observed OFF it stops keep-alive immediately and
arms no one-shot. When the armed one-shot fires it issues exactly the
relay OFF command and only then stops keep-alive (the interval handle is
down after the firing step). -/
theorem handleMcbOff_delayed_off (cfg : VentilatorConfig)
    (statusResult : Except VentError Bool) (now : Int) (ms : VentModuleState) :
    (statusResult ≠ Except.ok false →
      (handleMcbOff cfg statusResult now ms).state.delayedOffTimer =
        some (calculateDelayEndTime cfg now) ∧
      (handleMcbOff cfg statusResult now ms).state.ventilatorState.delayedOffEndTime =
        some (calculateDelayEndTime cfg now) ∧
      (handleMcbOff cfg statusResult now ms).state.keepAliveTimer =
        ms.keepAliveTimer ∧
      (handleMcbOff cfg statusResult now ms).state.ventilatorState.keepAliveActive =
        ms.ventilatorState.keepAliveActive ∧
      (handleMcbOff cfg statusResult now ms).result = Except.ok true) ∧
    (statusResult = Except.ok false →
      (handleMcbOff cfg statusResult now ms).state.delayedOffTimer = none ∧
      (handleMcbOff cfg statusResult now ms).state.keepAliveTimer = false ∧
      (handleMcbOff cfg statusResult now ms).result = Except.ok true) ∧
    (∀ rres fnow ms2, ms2.delayedOffTimer ≠ none →
      (delayedOffTimerFire rres fnow ms2).2 = [VentAction.relayCommand false] ∧
      (delayedOffTimerFire rres fnow ms2).1.keepAliveTimer = false ∧
      (delayedOffTimerFire rres fnow ms2).1.delayedOffTimer = none ∧
      (delayedOffTimerFire rres fnow ms2).1.ventilatorState.delayedOffEndTime =
        none) := by
  refine ⟨fun hne => ?_, fun heq => ?_, fun rres fnow ms2 hsome => ?_⟩
  · cases statusResult with
    | error e =>
        cases hd : ms.delayedOffTimer <;>
          simp [handleMcbOff, getShellyStatus, startDelayedOff,
            updateVentilatorStatus, hd]
    | ok b =>
        cases b with
        | false => exact absurd rfl hne
        | true =>
            cases hd : ms.delayedOffTimer <;>
              simp [handleMcbOff, getShellyStatus, startDelayedOff,
                updateVentilatorStatus, hd]
  · subst heq
    cases hd : ms.delayedOffTimer <;>
      cases hk : ms.keepAliveTimer <;>
        simp [handleMcbOff, getShellyStatus, stopKeepAliveTimer, stopKeepAlive,
          updateVentilatorStatus, hd, hk]
  · have hs : ms2.delayedOffTimer.isSome = true := Option.isSome_iff_ne_none.mpr hsome
    cases rres with
    | none =>
        cases hk : ms2.keepAliveTimer <;>
          simp [delayedOffTimerFire, controlShellyRelay, updateVentilatorStatus,
            clearDelayedOff, stopKeepAliveTimer, stopKeepAlive, hs, hk]
    | some e =>
        cases hk : ms2.keepAliveTimer <;>
          simp [delayedOffTimerFire, controlShellyRelay, updateVentilatorStatus,
            clearDelayedOff, stopKeepAliveTimer, stopKeepAlive, hs, hk]

/-- Witness for C5: relay observed ON at `now = 0` with `delayOffMinutes =
60` arms the one-shot at 3 600 000 ms and leaves keep-alive running; relay
observed OFF stops keep-alive and arms nothing; a live one-shot firing
issues exactly the relay OFF command. -/
theorem handleMcbOff_delayed_off_witness :
    ((handleMcbOff ⟨60, 25⟩ (Except.ok true) 0
        { ventilatorState := { status := some true, delayedOffEndTime := none,
                               keepAliveActive := true, lastUpdate := none },
          delayedOffTimer := none, keepAliveTimer := true }).state.delayedOffTimer =
      some 3600000 ∧
     (handleMcbOff ⟨60, 25⟩ (Except.ok true) 0
        { ventilatorState := { status := some true, delayedOffEndTime := none,
                               keepAliveActive := true, lastUpdate := none },
          delayedOffTimer := none, keepAliveTimer := true }).state.keepAliveTimer =
      true) ∧
    (handleMcbOff ⟨60, 25⟩ (Except.ok false) 0
        { ventilatorState := { status := some true, delayedOffEndTime := none,
                               keepAliveActive := true, lastUpdate := none },
          delayedOffTimer := none, keepAliveTimer := true }).state.keepAliveTimer =
      false ∧
    (delayedOffTimerFire none 3600000
        { ventilatorState := { status := some true, delayedOffEndTime := some 3600000,
                               keepAliveActive := true, lastUpdate := none },
          delayedOffTimer := some 3600000, keepAliveTimer := true }).2 =
      [VentAction.relayCommand false] := by
  refine ⟨⟨?_, ?_⟩, ?_, ?_⟩
  · have h := (handleMcbOff_delayed_off ⟨60, 25⟩ (Except.ok true) 0
      { ventilatorState := { status := some true, delayedOffEndTime := none,
                             keepAliveActive := true, lastUpdate := none },
        delayedOffTimer := none, keepAliveTimer := true }).1 (by decide)
    simpa using h.1
  · have h := (handleMcbOff_delayed_off ⟨60, 25⟩ (Except.ok true) 0
      { ventilatorState := { status := some true, delayedOffEndTime := none,
                             keepAliveActive := true, lastUpdate := none },
        delayedOffTimer := none, keepAliveTimer := true }).1 (by decide)
    simpa using h.2.2.1
  · have h := (handleMcbOff_delayed_off ⟨60, 25⟩ (Except.ok false) 0
      { ventilatorState := { status := some true, delayedOffEndTime := none,
                             keepAliveActive := true, lastUpdate := none },
        delayedOffTimer := none, keepAliveTimer := true }).2.1 rfl
    exact h.2.1
  · have h := (handleMcbOff_delayed_off ⟨60, 25⟩ (Except.ok true) 0
      initialVentModule).2.2 none 3600000
      { ventilatorState := { status := some true, delayedOffEndTime := some 3600000,
                             keepAliveActive := true, lastUpdate := none },
        delayedOffTimer := some 3600000, keepAliveTimer := true } (by decide)
    exact h.1

/-- One ventilator operation preserves the timer/field linkage: a live
one-shot handle always carries the deadline stored in
`delayedOffEndTime`. -/
lemma timerFieldOk_ventStep (cfg : VentilatorConfig) (ms : VentModuleState)
    (op : VentOp) (h : timerFieldOk ms = true) :
    timerFieldOk (ventStep cfg ms op) = true := by
  cases op with
  | mcbOn relayResult now =>
      cases hd : ms.delayedOffTimer <;> cases relayResult <;>
        cases hk : ms.keepAliveTimer <;>
          simp [ventStep, handleMcbOn, controlShellyRelay, clearDelayedOff,
            updateVentilatorStatus, startKeepAlive, timerFieldOk, hd, hk]
  | mcbOff statusResult now =>
      rcases statusResult with e | b
      · cases hd : ms.delayedOffTimer <;>
          simp [ventStep, handleMcbOff, getShellyStatus, startDelayedOff,
            updateVentilatorStatus, timerFieldOk, hd]
      · cases b <;> cases hd : ms.delayedOffTimer <;>
          cases hk : ms.keepAliveTimer <;>
            simp [ventStep, handleMcbOff, getShellyStatus, startDelayedOff,
              stopKeepAliveTimer, stopKeepAlive, updateVentilatorStatus,
              timerFieldOk, hd, hk]
  | timerFire relayResult now =>
      cases hd : ms.delayedOffTimer with
      | none => simpa [ventStep, delayedOffTimerFire, hd] using h
      | some d =>
          cases relayResult <;> cases hk : ms.keepAliveTimer <;>
            simp [ventStep, delayedOffTimerFire, controlShellyRelay,
              updateVentilatorStatus, clearDelayedOff, stopKeepAliveTimer,
              stopKeepAlive, timerFieldOk, hd, hk]
  | keepAliveTick r1 r2 now1 now2 =>
      cases hk : ms.keepAliveTimer
      · simpa [ventStep, hk] using h
      · cases hd : ms.delayedOffTimer <;> cases r1 <;> cases r2 <;>
          simp_all [ventStep, resetKeepAlive, controlShellyRelay,
            updateVentilatorStatus, timerFieldOk, hk, hd]
  | stopDelayedOff =>
      cases hd : ms.delayedOffTimer with
      | none => simpa [ventStep, stopDelayedOffTimer, hd] using h
      | some d =>
          simp [ventStep, stopDelayedOffTimer, clearDelayedOff, timerFieldOk, hd]
  | clearTimers =>
      simp [ventStep, clearAllTimers, timerFieldOk, INITIAL_VENTILATOR_STATE]

/-- The timer/field linkage holds along every operation sequence. -/
lemma timerFieldOk_ventRun (cfg : VentilatorConfig) (ops : List VentOp)
    (ms : VentModuleState) (h : timerFieldOk ms = true) :
    timerFieldOk (ventRun cfg ms ops) = true := by
  induction ops generalizing ms with
  | nil => exact h
  | cons op ops ih => exact ih _ (timerFieldOk_ventStep cfg ms op h)

/-- C4 counterexample: `handleMcbOff` at 0 ms (relay observed ON,
`delayOffMinutes = 60`) arms the one-shot and sets the deadline field to
3 600 000; a second `handleMcbOff` at 1 000 ms with the relay observed OFF
cancels the one-shot at entry (service lines 505-508) without clearing the
field and then returns through the observed-OFF branch, reaching a state
with `delayedOffEndTime` non-null and no live timer — refuting the claimed
iff. -/
theorem ventilator_delayedOff_field_counterexample :
    (ventRun ⟨60, 25⟩ initialVentModule
      [VentOp.mcbOff (Except.ok true) 0,
        VentOp.mcbOff (Except.ok false) 1000]).delayedOffTimer = none ∧
    (ventRun ⟨60, 25⟩ initialVentModule
      [VentOp.mcbOff (Except.ok true) 0,
        VentOp.mcbOff (Except.ok false) 1000]).ventilatorState.delayedOffEndTime =
      some 3600000 := by
  constructor <;> decide

/-- C4 amended: in every reachable ventilator-controller state a live
one-shot timer implies `delayedOffEndTime` holds exactly its deadline (the
converse fails: `handleMcbOff` cancels a pre-existing timer without
clearing the field, so after its observed-OFF branch the field can be
non-null with no timer); when the timer fires it issues the relay OFF
command and clears the field in that step, and `handleMcbOn`,
`stopDelayedOffTimer` and `clearAllTimers` clear the field in the same
step in which they cancel a live timer. -/
theorem ventilator_delayedOff_field_link :
    (∀ cfg ops, timerFieldOk (ventRun cfg initialVentModule ops) = true) ∧
    (∀ rres fnow ms,
      (delayedOffTimerFire rres fnow ms).1.delayedOffTimer = none ∧
      (delayedOffTimerFire rres fnow ms).1.ventilatorState.delayedOffEndTime =
        (if ms.delayedOffTimer.isSome then none
          else ms.ventilatorState.delayedOffEndTime) ∧
      (delayedOffTimerFire rres fnow ms).2 =
        (if ms.delayedOffTimer.isSome then [VentAction.relayCommand false]
          else [])) ∧
    (∀ rres now ms,
      (handleMcbOn rres now ms).state.delayedOffTimer = none ∧
      (handleMcbOn rres now ms).state.ventilatorState.delayedOffEndTime =
        (if ms.delayedOffTimer.isSome then none
          else ms.ventilatorState.delayedOffEndTime)) ∧
    (∀ ms, (stopDelayedOffTimer ms).delayedOffTimer = none ∧
      (stopDelayedOffTimer ms).ventilatorState.delayedOffEndTime =
        (if ms.delayedOffTimer.isSome then none
          else ms.ventilatorState.delayedOffEndTime)) ∧
    (∀ ms, (clearAllTimers ms).delayedOffTimer = none ∧
      (clearAllTimers ms).ventilatorState.delayedOffEndTime = none) := by
  refine ⟨fun cfg ops => timerFieldOk_ventRun cfg ops initialVentModule rfl,
    fun rres fnow ms => ?_, fun rres now ms => ?_, fun ms => ?_, fun ms => ?_⟩
  · cases hd : ms.delayedOffTimer <;> cases rres <;>
      cases hk : ms.keepAliveTimer <;>
        simp [delayedOffTimerFire, controlShellyRelay, updateVentilatorStatus,
          clearDelayedOff, stopKeepAliveTimer, stopKeepAlive, hd, hk]
  · cases hd : ms.delayedOffTimer <;> cases rres <;>
      cases hk : ms.keepAliveTimer <;>
        simp [handleMcbOn, controlShellyRelay, clearDelayedOff,
          updateVentilatorStatus, startKeepAlive, hd, hk]
  · cases hd : ms.delayedOffTimer <;>
      simp [stopDelayedOffTimer, clearDelayedOff, hd]
  · simp [clearAllTimers, INITIAL_VENTILATOR_STATE]

/-- The emission list has one entry per processed update. -/
lemma phaseEmits_length (acc : PhaseAccumulator) (us : List PhaseUpd) :
    (phaseEmits acc us).length = us.length := by
  induction us generalizing acc with
  | nil => rfl
  | cons u us ih => simp [phaseEmits, ih]

/-- The accumulator after `i + 1` updates determines the i-th emission. -/
lemma phaseEmits_getElem (acc : PhaseAccumulator) (us : List PhaseUpd)
    (i : ℕ) (h : i < us.length) :
    (phaseEmits acc us)[i]? =
      some (accumulatorToPhaseData (phaseRunAcc acc (us.take (i + 1)))) := by
  induction us generalizing acc i with
  | nil => exact absurd h (by simp)
  | cons u us ih =>
      cases i with
      | zero => simp [phaseEmits, phaseRunAcc, handlePhaseMessage]
      | succ i =>
          have hi : i < us.length := by simpa using h
          simp [phaseEmits, phaseRunAcc, handlePhaseMessage, ih _ i hi,
            List.take_succ_cons]

/-- The l1 field is set after a run exactly when some update addressed it
or it was already set. -/
lemma phaseRunAcc_l1_isSome (us : List PhaseUpd) (acc : PhaseAccumulator) :
    (phaseRunAcc acc us).l1_a.isSome =
      (observedField us PhaseField.l1_a || acc.l1_a.isSome) := by
  induction us generalizing acc with
  | nil => simp [phaseRunAcc, observedField]
  | cons u us ih =>
      have step : phaseRunAcc acc (u :: us) =
          phaseRunAcc (updatePhaseAccumulator acc u.field u.value u.now) us := rfl
      rw [step, ih]
      cases hf : u.field <;>
        simp [observedField, updatePhaseAccumulator, hf, List.any_cons,
          Bool.or_comm, Bool.or_assoc, Bool.or_left_comm]

/-- The l2 field is set after a run exactly when some update addressed it
or it was already set. -/
lemma phaseRunAcc_l2_isSome (us : List PhaseUpd) (acc : PhaseAccumulator) :
    (phaseRunAcc acc us).l2_a.isSome =
      (observedField us PhaseField.l2_a || acc.l2_a.isSome) := by
  induction us generalizing acc with
  | nil => simp [phaseRunAcc, observedField]
  | cons u us ih =>
      have step : phaseRunAcc acc (u :: us) =
          phaseRunAcc (updatePhaseAccumulator acc u.field u.value u.now) us := rfl
      rw [step, ih]
      cases hf : u.field <;>
        simp [observedField, updatePhaseAccumulator, hf, List.any_cons,
          Bool.or_comm, Bool.or_assoc, Bool.or_left_comm]

/-- The l3 field is set after a run exactly when some update addressed it
or it was already set. -/
lemma phaseRunAcc_l3_isSome (us : List PhaseUpd) (acc : PhaseAccumulator) :
    (phaseRunAcc acc us).l3_a.isSome =
      (observedField us PhaseField.l3_a || acc.l3_a.isSome) := by
  induction us generalizing acc with
  | nil => simp [phaseRunAcc, observedField]
  | cons u us ih =>
      have step : phaseRunAcc acc (u :: us) =
          phaseRunAcc (updatePhaseAccumulator acc u.field u.value u.now) us := rfl
      rw [step, ih]
      cases hf : u.field <;>
        simp [observedField, updatePhaseAccumulator, hf, List.any_cons,
          Bool.or_comm, Bool.or_assoc, Bool.or_left_comm]

/-- A complete reading comes out exactly when no accumulator field is null. -/
lemma accumulatorToPhaseData_isSome (acc : PhaseAccumulator) :
    (accumulatorToPhaseData acc).isSome =
      (acc.l1_a.isSome && acc.l2_a.isSome && acc.l3_a.isSome) := by
  cases h1 : acc.l1_a <;> cases h2 : acc.l2_a <;> cases h3 : acc.l3_a <;>
    simp [accumulatorToPhaseData, h1, h2, h3]

/-- C6: for every sequence of successfully parsed per-field phase updates
processed since connection, the adapter emits a complete reading after the
i-th update exactly when each of `l1_a`, `l2_a`, `l3_a` has been addressed
by some update among the first `i + 1` — so nothing is emitted before all
three phases have been observed, and every emitted reading (of type
`MqttPhaseData`, whose three components are total) has all components set. -/
theorem phase_reading_emitted_iff_complete (us : List PhaseUpd) (i : ℕ)
    (e : Option MqttPhaseData)
    (h : (phaseEmits INITIAL_PHASE_ACCUMULATOR us)[i]? = some e) :
    e.isSome =
      (observedField (us.take (i + 1)) PhaseField.l1_a &&
        observedField (us.take (i + 1)) PhaseField.l2_a &&
          observedField (us.take (i + 1)) PhaseField.l3_a) := by
  have hlen : i < us.length := by
    by_contra hn
    rw [not_lt] at hn
    rw [List.getElem?_eq_none (by rw [phaseEmits_length]; exact hn)] at h
    exact Option.noConfusion h
  rw [phaseEmits_getElem _ _ _ hlen] at h
  have he : e = accumulatorToPhaseData
      (phaseRunAcc INITIAL_PHASE_ACCUMULATOR (us.take (i + 1))) :=
    (Option.some.injEq _ _).mp h.symm
  rw [he, accumulatorToPhaseData_isSome, phaseRunAcc_l1_isSome,
    phaseRunAcc_l2_isSome, phaseRunAcc_l3_isSome]
  simp [INITIAL_PHASE_ACCUMULATOR]

/-- Witness for C6, scenario S3: updates l1 = 12, l2 = 7, l3 = 3 — after
the second update nothing is emitted, after the third exactly the complete
reading (12, 7, 3) comes out. -/
theorem phase_reading_emitted_iff_complete_witness :
    (none : Option MqttPhaseData).isSome =
      (observedField ([⟨PhaseField.l1_a, 12, 1000⟩, ⟨PhaseField.l2_a, 7, 1500⟩,
          ⟨PhaseField.l3_a, 3, 2000⟩].take 2) PhaseField.l1_a &&
        observedField ([⟨PhaseField.l1_a, 12, 1000⟩, ⟨PhaseField.l2_a, 7, 1500⟩,
          ⟨PhaseField.l3_a, 3, 2000⟩].take 2) PhaseField.l2_a &&
          observedField ([⟨PhaseField.l1_a, 12, 1000⟩, ⟨PhaseField.l2_a, 7, 1500⟩,
            ⟨PhaseField.l3_a, 3, 2000⟩].take 2) PhaseField.l3_a) ∧
    (some (⟨12, 7, 3, some 2000⟩ : MqttPhaseData)).isSome =
      (observedField ([⟨PhaseField.l1_a, 12, 1000⟩, ⟨PhaseField.l2_a, 7, 1500⟩,
          ⟨PhaseField.l3_a, 3, 2000⟩].take 3) PhaseField.l1_a &&
        observedField ([⟨PhaseField.l1_a, 12, 1000⟩, ⟨PhaseField.l2_a, 7, 1500⟩,
          ⟨PhaseField.l3_a, 3, 2000⟩].take 3) PhaseField.l2_a &&
          observedField ([⟨PhaseField.l1_a, 12, 1000⟩, ⟨PhaseField.l2_a, 7, 1500⟩,
            ⟨PhaseField.l3_a, 3, 2000⟩].take 3) PhaseField.l3_a) :=
  ⟨phase_reading_emitted_iff_complete
      [⟨PhaseField.l1_a, 12, 1000⟩, ⟨PhaseField.l2_a, 7, 1500⟩,
        ⟨PhaseField.l3_a, 3, 2000⟩] 1 none (by decide),
    phase_reading_emitted_iff_complete
      [⟨PhaseField.l1_a, 12, 1000⟩, ⟨PhaseField.l2_a, 7, 1500⟩,
        ⟨PhaseField.l3_a, 3, 2000⟩] 2 (some ⟨12, 7, 3, some 2000⟩) (by decide)⟩

end Sauna
